import Mathlib

set_option maxRecDepth 100000

/-!
# Verification of the LLM-MCP AI-gateway decision core

Shallow embedding of the gateway's four decision subsystems — the adaptive
rate limiter (`gateway/rate_limiter.py`), the semantic response cache
(`src/llm_mcp/gateway/cache.py`), the cost accountant
(`src/llm_mcp/gateway/cost_tracker.py`), the metrics aggregator
(`gateway/metrics.py`), and the provider router (`gateway/router.py`) —
together with the orchestrating tool `unified_completion`
(`src/llm_mcp/server/server.py`).

Modelling conventions:
* Python floats and wall-clock timestamps are embedded as exact rationals
  (`ℚ`); timestamps are seconds.
* Python `int(x)` (truncation toward zero) is `pyInt`.
* Python dictionaries are association lists preserving insertion order;
  overwriting a key keeps its position (as CPython dicts do).
* Injected capabilities (embedding computation, health probes, the provider
  completion client, wall-clock reads) are passed as explicit parameters.
-/

/-- Python `int()` applied to a float: truncation toward zero. -/
def pyInt (x : ℚ) : ℤ := if 0 ≤ x then ⌊x⌋ else ⌈x⌉

theorem pyInt_of_nonneg {x : ℚ} (h : 0 ≤ x) : pyInt x = ⌊x⌋ := if_pos h

/-- Insertion-order-preserving dictionary update: replace in place if the key
is present, else append (CPython dict assignment semantics). -/
def dictSet {α : Type} [BEq α] {β : Type} : List (α × β) → α → β → List (α × β)
  | [], k, v => [(k, v)]
  | (k', v') :: rest, k, v =>
      if k' == k then (k, v) :: rest else (k', v') :: dictSet rest k v

/-- Source `gateway/rate_limiter.py` — the per-caller window record held in
`user_requests` (a defaultdict of minute/hour deques plus last-request time). -/
structure UserData where
  minute_window : List ℚ
  hour_window : List ℚ
  last_request : ℚ
deriving Repr, DecidableEq

/-- The defaultdict default: empty windows, `last_request = 0`. -/
def UserData.emptyData : UserData := ⟨[], [], 0⟩

/-- Source `gateway/rate_limiter.py` — `AdaptiveRateLimiter` state. -/
structure AdaptiveRateLimiter where
  default_rpm : ℕ
  default_rph : ℕ
  burst_limit : ℕ
  current_load : ℚ
  adaptive_multiplier : ℚ
  user_requests : List (String × UserData)
deriving Repr, DecidableEq

namespace AdaptiveRateLimiter

/-- Source `AdaptiveRateLimiter.__init__` (defaults 60 rpm, 1000 rph, burst 10). -/
def init (rpm rph burst : ℕ) : AdaptiveRateLimiter :=
  { default_rpm := rpm, default_rph := rph, burst_limit := burst
    current_load := 0, adaptive_multiplier := 1, user_requests := [] }

/-- Read `self.user_requests[user_id]` (defaultdict: absent keys read as the
empty record). -/
def getUser (rl : AdaptiveRateLimiter) (uid : String) : UserData :=
  (rl.user_requests.lookup uid).getD UserData.emptyData

/-- Write back one caller's record. -/
def setUser (rl : AdaptiveRateLimiter) (uid : String) (u : UserData) :
    AdaptiveRateLimiter :=
  { rl with user_requests := dictSet rl.user_requests uid u }

/-- Source `_clean_windows`: pop entries strictly older than the 60 s / 3600 s
cutoffs from the left of each deque. -/
def cleanWindows (u : UserData) (now : ℚ) : UserData :=
  { u with
    minute_window := u.minute_window.dropWhile (fun t => t < now - 60)
    hour_window := u.hour_window.dropWhile (fun t => t < now - 3600) }

/-- Source `should_throttle`: clean the caller's windows, then deny if the minute
window holds ≥ `burst_limit` entries, or ≥ `int(default_rpm ×
adaptive_multiplier)`, or the hour window holds ≥ `int(default_rph ×
adaptive_multiplier)`.  Returns the decision and the mutated limiter (the
cleaning is an in-place mutation in the source). -/
def should_throttle (rl : AdaptiveRateLimiter) (uid : String) (now : ℚ) :
    Bool × AdaptiveRateLimiter :=
  let u := cleanWindows (rl.getUser uid) now
  let rl' := rl.setUser uid u
  let throttled :=
    decide (u.minute_window.length ≥ rl.burst_limit) ||
    decide ((u.minute_window.length : ℤ) ≥
      pyInt ((rl.default_rpm : ℚ) * rl.adaptive_multiplier)) ||
    decide ((u.hour_window.length : ℤ) ≥
      pyInt ((rl.default_rph : ℚ) * rl.adaptive_multiplier))
  (throttled, rl')

/-- Source `record_request`: append `now` to both windows and set `last_request`. -/
def record_request (rl : AdaptiveRateLimiter) (uid : String) (now : ℚ) :
    AdaptiveRateLimiter :=
  let u := rl.getUser uid
  rl.setUser uid
    { minute_window := u.minute_window ++ [now]
      hour_window := u.hour_window ++ [now]
      last_request := now }

/-- Source `get_retry_after`: 0 on an empty minute window, else
`max(0, int(60 − (now − oldest)))`. -/
def get_retry_after (rl : AdaptiveRateLimiter) (uid : String) (now : ℚ) : ℤ :=
  match (rl.getUser uid).minute_window with
  | [] => 0
  | oldest :: _ => max 0 (pyInt (60 - (now - oldest)))

/-- Source `update_load`: the four-tier multiplier table. -/
def update_load (rl : AdaptiveRateLimiter) (load : ℚ) : AdaptiveRateLimiter :=
  { rl with
    current_load := load
    adaptive_multiplier :=
      if load > 8/10 then 1/2
      else if load > 6/10 then 7/10
      else if load < 3/10 then 6/5
      else 1 }

end AdaptiveRateLimiter

/-- C3: `should_throttle` denies exactly when the pruned minute-window count
is ≥ the burst limit, or ≥ ⌊baseRPM × multiplier⌋, or the pruned hour-window
count is ≥ ⌊baseRPH × multiplier⌋ (for any nonnegative multiplier); the burst
ceiling rejects regardless of the multiplier; and every multiplier
`update_load` can set is one of 0.5, 0.7, 1.2, 1 — in particular
nonnegative. -/
theorem should_throttle_denial_conditions :
    (∀ (rl : AdaptiveRateLimiter) (uid : String) (now : ℚ),
      0 ≤ rl.adaptive_multiplier →
      (let u := AdaptiveRateLimiter.cleanWindows (rl.getUser uid) now
       (rl.should_throttle uid now).1 = true ↔
        (u.minute_window.length ≥ rl.burst_limit ∨
         (u.minute_window.length : ℤ) ≥
           ⌊(rl.default_rpm : ℚ) * rl.adaptive_multiplier⌋ ∨
         (u.hour_window.length : ℤ) ≥
           ⌊(rl.default_rph : ℚ) * rl.adaptive_multiplier⌋))) ∧
    (∀ (rl : AdaptiveRateLimiter) (uid : String) (now : ℚ),
      (AdaptiveRateLimiter.cleanWindows (rl.getUser uid) now).minute_window.length
        ≥ rl.burst_limit →
      (rl.should_throttle uid now).1 = true) ∧
    (∀ (rl : AdaptiveRateLimiter) (load : ℚ),
      (rl.update_load load).adaptive_multiplier = 1/2 ∨
      (rl.update_load load).adaptive_multiplier = 7/10 ∨
      (rl.update_load load).adaptive_multiplier = 6/5 ∨
      (rl.update_load load).adaptive_multiplier = 1) := by
  refine ⟨?_, ?_, ?_⟩
  · intro rl uid now hm
    have h1 : (0:ℚ) ≤ (rl.default_rpm : ℚ) * rl.adaptive_multiplier :=
      mul_nonneg (Nat.cast_nonneg _) hm
    have h2 : (0:ℚ) ≤ (rl.default_rph : ℚ) * rl.adaptive_multiplier :=
      mul_nonneg (Nat.cast_nonneg _) hm
    simp only [AdaptiveRateLimiter.should_throttle, Bool.or_eq_true,
      decide_eq_true_eq, pyInt_of_nonneg h1, pyInt_of_nonneg h2, or_assoc]
  · intro rl uid now hb
    simp only [AdaptiveRateLimiter.should_throttle, Bool.or_eq_true,
      decide_eq_true_eq]
    exact Or.inl (Or.inl hb)
  · intro rl load
    simp only [AdaptiveRateLimiter.update_load]
    split
    · exact Or.inl rfl
    · split
      · exact Or.inr (Or.inl rfl)
      · split
        · exact Or.inr (Or.inr (Or.inl rfl))
        · exact Or.inr (Or.inr (Or.inr rfl))

/-- A limiter state whose caller `"u"` has 10 fresh requests in its windows;
with burst limit 10, `should_throttle` denies at time 100 even at the loosest
multiplier (1.2, load 0.1), and the iff of the main theorem holds there. -/
theorem should_throttle_denial_conditions_witness :
    (((AdaptiveRateLimiter.init 60 1000 10).update_load (1/10)).setUser "u"
        ⟨[95, 95, 95, 96, 96, 97, 97, 98, 99, 99],
         [95, 95, 95, 96, 96, 97, 97, 98, 99, 99], 99⟩
      |>.should_throttle "u" 100).1 = true :=
  should_throttle_denial_conditions.2.1
    (((AdaptiveRateLimiter.init 60 1000 10).update_load (1/10)).setUser "u"
        ⟨[95, 95, 95, 96, 96, 97, 97, 98, 99, 99],
         [95, 95, 95, 96, 96, 97, 97, 98, 99, 99], 99⟩)
    "u" 100 (by with_unfolding_all decide)

/-- Source `src/llm_mcp/gateway/cost_tracker.py` — `CostModel` dataclass. -/
structure CostModel where
  provider : String
  model : String
  input_cost_per_1k : ℚ
  output_cost_per_1k : ℚ
  request_cost : ℚ
deriving Repr, DecidableEq

/-- One entry of `usage_history` (the append-only usage ledger). -/
structure UsageRecord where
  timestamp : ℚ
  provider : String
  model : String
  cost : ℚ
deriving Repr, DecidableEq

/-- Source `cost_tracker.py` — `CostOptimizer` state.  `cost_models` is the static
rate table built by `_initialize_cost_models`. -/
structure CostOptimizer where
  cost_models : List (String × CostModel)
  usage_history : List UsageRecord
  cost_by_user : List (String × ℚ)
  cost_by_provider : List (String × ℚ)
deriving Repr, DecidableEq

namespace CostOptimizer

/-- Source `_initialize_cost_models`: the static 2025 per-model rate table. -/
def initial_cost_models : List (String × CostModel) :=
  [ ("gpt-5", ⟨"openai", "gpt-5", 3, 15, 0⟩),
    ("o3", ⟨"openai", "o3", 15, 60, 0⟩),
    ("o4-mini", ⟨"openai", "o4-mini", 15/100, 60/100, 0⟩),
    ("claude-opus-4.1", ⟨"anthropic", "claude-opus-4.1", 15, 75, 0⟩),
    ("claude-sonnet-4", ⟨"anthropic", "claude-sonnet-4", 3, 15, 0⟩),
    ("gemini-2.5-pro", ⟨"google", "gemini-2.5-pro", 125/100, 5, 0⟩),
    ("gemini-2.5-flash", ⟨"google", "gemini-2.5-flash", 75/1000, 30/100, 0⟩),
    ("grok-4", ⟨"xai", "grok-4", 5, 15, 0⟩),
    ("grok-4-heavy", ⟨"xai", "grok-4-heavy", 10, 30, 0⟩) ]

/-- Source `CostOptimizer.__init__`. -/
def init : CostOptimizer :=
  { cost_models := initial_cost_models, usage_history := []
    cost_by_user := [], cost_by_provider := [] }

/-- Source `_track_usage`: append a `UsageRecord`, bump the per-provider total, and
prune the ledger to the last 24 hours (keep records with `timestamp >
now − 24 h`). -/
def _track_usage (st : CostOptimizer) (provider model : String) (cost : ℚ)
    (now : ℚ) : CostOptimizer :=
  let usage : UsageRecord := ⟨now, provider, model, cost⟩
  let appended := st.usage_history ++ [usage]
  { st with
    usage_history := appended.filter (fun u => u.timestamp > now - 24 * 3600)
    cost_by_provider :=
      dictSet st.cost_by_provider provider
        (((st.cost_by_provider.lookup provider).getD 0) + cost) }

/-- Source `calculate_cost`: unknown models return the constant default `0.001`
(returning early, before `_track_usage`); known models pay
`(input/1000)·rate_in + (output/1000)·rate_out + request_cost` and append a
`UsageRecord`.  Returns the cost together with the updated state. -/
def calculate_cost (st : CostOptimizer) (provider model : String)
    (input_tokens output_tokens : ℕ) (now : ℚ) : ℚ × CostOptimizer :=
  match st.cost_models.lookup model with
  | none => (1/1000, st)
  | some cost_model =>
    let input_cost := ((input_tokens : ℚ) / 1000) * cost_model.input_cost_per_1k
    let output_cost := ((output_tokens : ℚ) / 1000) * cost_model.output_cost_per_1k
    let total_cost := input_cost + output_cost + cost_model.request_cost
    (total_cost, st._track_usage provider model total_cost now)

end CostOptimizer

/-- C5: for every model in the rate table, `calculate_cost` returns
`(inputTokens/1000)·inputRate + (outputTokens/1000)·outputRate +
fixedRequestCost`; in particular 1000 input and 500 output tokens on
`claude-sonnet-4` (rates 3.0 / 15.0) cost exactly `1×3 + 0.5×15 = 10.5`. -/
theorem calculate_cost_formula :
    (∀ (st : CostOptimizer) (provider model : String)
       (input_tokens output_tokens : ℕ) (now : ℚ) (cm : CostModel),
      st.cost_models.lookup model = some cm →
      (st.calculate_cost provider model input_tokens output_tokens now).1 =
        ((input_tokens : ℚ) / 1000) * cm.input_cost_per_1k +
        ((output_tokens : ℚ) / 1000) * cm.output_cost_per_1k +
        cm.request_cost) ∧
    (∀ now : ℚ,
      (CostOptimizer.init.calculate_cost "anthropic" "claude-sonnet-4"
        1000 500 now).1 = 21/2) := by
  constructor
  · intro st provider model input_tokens output_tokens now cm hlook
    simp only [CostOptimizer.calculate_cost, hlook]
  · intro now
    have hlook : CostOptimizer.init.cost_models.lookup "claude-sonnet-4" =
        some ⟨"anthropic", "claude-sonnet-4", 3, 15, 0⟩ := by
      with_unfolding_all decide
    simp only [CostOptimizer.calculate_cost, hlook]
    norm_num

/-- The general C5 formula instantiated at `gpt-5` with 1000 input and 500
output tokens: `1×3 + 0.5×15 + 0`. -/
theorem calculate_cost_formula_witness :
    (CostOptimizer.init.calculate_cost "openai" "gpt-5" 1000 500 0).1 =
      ((1000 : ℚ) / 1000) * 3 + ((500 : ℚ) / 1000) * 15 + 0 :=
  calculate_cost_formula.1 CostOptimizer.init "openai" "gpt-5" 1000 500 0
    ⟨"openai", "gpt-5", 3, 15, 0⟩ (by with_unfolding_all decide)

/-- C6 counterexample: a `calculate_cost` call with a model absent from the
rate table returns the default `0.001` but appends nothing to the usage
ledger — the state, ledger included, is returned unchanged — refuting the
claim that every call appends a `UsageRecord`. -/
theorem calculate_cost_unknown_no_ledger_append :
    (CostOptimizer.init.calculate_cost "openai" "no-such-model" 1000 500 0).1
        = 1/1000 ∧
    (CostOptimizer.init.calculate_cost "openai" "no-such-model" 1000 500
        0).2.usage_history = [] := by
  constructor
  · with_unfolding_all decide
  · with_unfolding_all decide

/-- C6 (amended): `calculate_cost` appends a `UsageRecord` carrying the
computed cost to the usage ledger for every model present in the rate table;
for a model absent from the table it returns the small constant default
`0.001` — nonzero — but returns early, leaving the state (ledger included)
unchanged, without appending a `UsageRecord`. -/
theorem calculate_cost_ledger_append :
    (∀ (st : CostOptimizer) (provider model : String)
       (input_tokens output_tokens : ℕ) (now : ℚ),
      st.cost_models.lookup model = none →
      st.calculate_cost provider model input_tokens output_tokens now =
        (1/1000, st) ∧ (1/1000 : ℚ) ≠ 0) ∧
    (∀ (st : CostOptimizer) (provider model : String)
       (input_tokens output_tokens : ℕ) (now : ℚ) (cm : CostModel),
      st.cost_models.lookup model = some cm →
      (st.calculate_cost provider model input_tokens output_tokens
          now).2.usage_history.getLast? =
        some ⟨now, provider, model,
          (st.calculate_cost provider model input_tokens output_tokens
            now).1⟩) := by
  constructor
  · intro st provider model input_tokens output_tokens now hlook
    refine ⟨?_, by norm_num⟩
    simp only [CostOptimizer.calculate_cost, hlook]
  · intro st provider model input_tokens output_tokens now cm hlook
    simp only [CostOptimizer.calculate_cost, hlook, CostOptimizer._track_usage,
      List.filter_append]
    have h24 : now - 24 * 3600 < now := by
      have h : (0:ℚ) < 24 * 3600 := by norm_num
      linarith
    simp [h24, List.getLast?_append_cons]

/-- The C6 amended theorem at concrete inputs: an unknown model leaves the
fresh ledger empty while returning `0.001`, and a known model (`grok-4`)
appends its record as the last ledger entry. -/
theorem calculate_cost_ledger_append_witness :
    (CostOptimizer.init.calculate_cost "openai" "no-model" 2 2 0 =
        (1/1000, CostOptimizer.init) ∧ (1/1000 : ℚ) ≠ 0) ∧
    (CostOptimizer.init.calculate_cost "xai" "grok-4" 1000 1000
        7).2.usage_history.getLast? =
      some ⟨7, "xai", "grok-4",
        (CostOptimizer.init.calculate_cost "xai" "grok-4" 1000 1000 7).1⟩ :=
  ⟨calculate_cost_ledger_append.1 CostOptimizer.init "openai" "no-model" 2 2 0
      (by with_unfolding_all decide),
   calculate_cost_ledger_append.2 CostOptimizer.init "xai" "grok-4" 1000 1000
      7 ⟨"xai", "grok-4", 5, 15, 0⟩ (by with_unfolding_all decide)⟩

/-- Association-list deletion (CPython `del d[key]` on a dict). -/
def dictDel {α : Type} [BEq α] {β : Type} (l : List (α × β)) (k : α) :
    List (α × β) :=
  l.filter (fun kv => !(kv.1 == k))

theorem lookup_dictDel {α : Type} [BEq α] [LawfulBEq α] {β : Type}
    (l : List (α × β)) (k : α) : (dictDel l k).lookup k = none := by
  induction l with
  | nil => rfl
  | cons kv rest ih =>
    obtain ⟨k', v'⟩ := kv
    by_cases h : k' = k
    · have hb : (k' == k) = true := beq_iff_eq.mpr h
      simpa only [dictDel, List.filter_cons, hb, Bool.not_true,
        Bool.false_eq_true, if_false] using ih
    · have hb : (k' == k) = false := beq_eq_false_iff_ne.mpr h
      have hb' : (k == k') = false := beq_eq_false_iff_ne.mpr (Ne.symm h)
      simp only [dictDel, List.filter_cons, hb, Bool.not_false, if_true,
        List.lookup, hb']
      exact ih

theorem lookup_eq_none_of_not_mem {α : Type} [BEq α] [LawfulBEq α] {β : Type}
    (l : List (α × β)) (k : α) (h : k ∉ l.map Prod.fst) : l.lookup k = none := by
  induction l with
  | nil => rfl
  | cons kv rest ih =>
    obtain ⟨k', v'⟩ := kv
    simp only [List.map_cons, List.mem_cons, not_or] at h
    have hb : (k == k') = false := beq_eq_false_iff_ne.mpr h.1
    simp only [List.lookup, hb]
    exact ih h.2

theorem dictSet_of_not_mem {α : Type} [BEq α] [LawfulBEq α] {β : Type}
    (l : List (α × β)) (k : α) (v : β) (h : k ∉ l.map Prod.fst) :
    dictSet l k v = l ++ [(k, v)] := by
  induction l with
  | nil => rfl
  | cons kv rest ih =>
    obtain ⟨k', v'⟩ := kv
    simp only [List.map_cons, List.mem_cons, not_or] at h
    have hb : (k' == k) = false := beq_eq_false_iff_ne.mpr (Ne.symm h.1)
    simp only [dictSet, hb, Bool.false_eq_true, if_false, List.cons_append]
    rw [ih h.2]

/-- Source `src/llm_mcp/gateway/cache.py` — the cache-entry dict built by `store`. -/
structure CacheEntry where
  prompt : String
  response : String
  model : String
  latency_ms : ℚ
  timestamp : ℚ
  metadata : List (String × String)
  embedding : List ℚ
deriving Repr, DecidableEq

/-- The dict `find_similar` returns on a cache hit. -/
structure CacheHit where
  text : String
  model : String
  latency_ms : ℚ
  similarity : ℚ
  cached_at : ℚ
  metadata : List (String × String)
deriving Repr, DecidableEq

/-- Source `cache.py` — `SemanticCache` state: the key→entry dict `cache_data`, the
FAISS inner-product index (its stored vectors, in insertion order), and the
position-aligned key list `prompt_embeddings`.  The embedding model itself is
an injected capability: `store` and `find_similar` receive the computed
vectors as arguments. -/
structure SemanticCache where
  similarity_threshold : ℚ
  ttl_hours : ℚ
  index : List (List ℚ)
  cache_data : List (String × CacheEntry)
  prompt_embeddings : List String
deriving Repr, DecidableEq

namespace SemanticCache

/-- Source `SemanticCache.__init__` (defaults: threshold 0.95, TTL 24 h). -/
def init (thr ttl : ℚ) : SemanticCache := ⟨thr, ttl, [], [], []⟩

/-- Source `_generate_key`: the source keys by `md5(f"{prompt}:{model}")`; the hash
is modelled by the hashed content itself (deterministic and collision-free in
the model, as md5 is assumed to be in the source). -/
def _generate_key (prompt model : String) : String := prompt ++ ":" ++ model

/-- Source `_is_expired`: age strictly greater than `ttl_hours` (hours → seconds). -/
def _is_expired (st : SemanticCache) (entry : CacheEntry) (now : ℚ) : Bool :=
  decide (now - entry.timestamp > st.ttl_hours * 3600)

/-- Source `_remove_entry`: delete the key from `cache_data` if present, and pop
position `faiss_index` from `prompt_embeddings` if in range.  The FAISS index
itself is left untouched (the source's "simplified" removal never calls into
FAISS), so the stored vector survives its entry. -/
def _remove_entry (st : SemanticCache) (cache_key : String) (faiss_index : ℕ) :
    SemanticCache :=
  let cd := if (st.cache_data.lookup cache_key).isSome then
    dictDel st.cache_data cache_key else st.cache_data
  let pe := if faiss_index < st.prompt_embeddings.length then
    st.prompt_embeddings.eraseIdx faiss_index else st.prompt_embeddings
  { st with cache_data := cd, prompt_embeddings := pe }

/-- Source `_clean_expired`: collect the keys of expired entries, then remove each —
via `_remove_entry` at the key's current position in `prompt_embeddings`, or
directly from `cache_data` when the key is absent from the list. -/
def _clean_expired (st : SemanticCache) (now : ℚ) : SemanticCache :=
  let expired_keys :=
    (st.cache_data.filter (fun kv => st._is_expired kv.2 now)).map Prod.fst
  expired_keys.foldl (fun s key =>
    match s.prompt_embeddings.findIdx? (fun k => k == key) with
    | some idx => s._remove_entry key idx
    | none => { s with cache_data := dictDel s.cache_data key }) st

/-- Source `store`: build the entry, overwrite `cache_data[key]`, append the vector
to the FAISS index and the key to `prompt_embeddings`, then run
`_clean_expired`. -/
def store (st : SemanticCache) (prompt response model : String)
    (latency_ms : ℚ) (metadata : List (String × String))
    (embedding : List ℚ) (now : ℚ) : SemanticCache :=
  let cache_entry : CacheEntry :=
    ⟨prompt, response, model, latency_ms, now, metadata, embedding⟩
  let cache_key := _generate_key prompt model
  let st' : SemanticCache :=
    { st with
      cache_data := dictSet st.cache_data cache_key cache_entry
      index := st.index ++ [embedding]
      prompt_embeddings := st.prompt_embeddings ++ [cache_key] }
  st'._clean_expired now

end SemanticCache

/-- Inner product of two embedding vectors (FAISS `IndexFlatIP` similarity). -/
def innerProd (a b : List ℚ) : ℚ :=
  (a.zip b).foldl (fun acc p => acc + p.1 * p.2) 0

/-- Left-to-right scan keeping the first index attaining the maximum inner
product (FAISS flat-index search order). -/
def bestStep (q : List ℚ) : ℕ × ℚ → ℕ → List (List ℚ) → ℕ × ℚ
  | best, _, [] => best
  | best, i, v :: vs =>
      bestStep q (if innerProd q v > best.2 then (i, innerProd q v) else best)
        (i + 1) vs

/-- Source `index.search(query, 1)`: the (index, score) of the single best vector. -/
def bestMatch (q : List ℚ) : List (List ℚ) → Option (ℕ × ℚ)
  | [] => none
  | v :: vs => some (bestStep q (0, innerProd q v) 1 vs)

theorem bestStep_ge (q : List ℚ) (vs : List (List ℚ)) :
    ∀ (best : ℕ × ℚ) (i : ℕ), best.2 ≤ (bestStep q best i vs).2 := by
  induction vs with
  | nil => intro best i; exact le_refl _
  | cons v vs ih =>
    intro best i
    simp only [bestStep]
    by_cases h : innerProd q v > best.2
    · rw [if_pos h]
      exact le_trans (le_of_lt h) (ih (i, innerProd q v) (i + 1))
    · rw [if_neg h]
      exact ih best (i + 1)

theorem bestStep_bound (q : List ℚ) (vs : List (List ℚ)) :
    ∀ (best : ℕ × ℚ) (i j : ℕ), j < vs.length →
      innerProd q (vs.getD j []) ≤ (bestStep q best i vs).2 := by
  induction vs with
  | nil => intro best i j hj; exact absurd hj (Nat.not_lt_zero j)
  | cons v vs ih =>
    intro best i j hj
    cases j with
    | zero =>
      simp only [List.getD_cons_zero, bestStep]
      by_cases h : innerProd q v > best.2
      · rw [if_pos h]
        exact bestStep_ge q vs (i, innerProd q v) (i + 1)
      · rw [if_neg h]
        exact le_trans (le_of_not_lt h) (bestStep_ge q vs best (i + 1))
    | succ j' =>
      simp only [List.getD_cons_succ, bestStep]
      exact ih _ (i + 1) j' (Nat.lt_of_succ_lt_succ hj)

theorem bestStep_cases (q : List ℚ) (vs : List (List ℚ)) :
    ∀ (best : ℕ × ℚ) (i : ℕ),
      bestStep q best i vs = best ∨
      ∃ j, j < vs.length ∧
        bestStep q best i vs = (i + j, innerProd q (vs.getD j [])) := by
  induction vs with
  | nil => intro best i; exact Or.inl rfl
  | cons v vs ih =>
    intro best i
    simp only [bestStep]
    by_cases h : innerProd q v > best.2
    · rw [if_pos h]
      rcases ih (i, innerProd q v) (i + 1) with h1 | ⟨j, hj, h2⟩
      · right
        refine ⟨0, Nat.succ_pos _, ?_⟩
        rw [h1]
        simp
      · right
        refine ⟨j + 1, Nat.succ_lt_succ hj, ?_⟩
        rw [h2]
        have : i + 1 + j = i + (j + 1) := by omega
        rw [this, List.getD_cons_succ]
    · rw [if_neg h]
      rcases ih best (i + 1) with h1 | ⟨j, hj, h2⟩
      · exact Or.inl h1
      · right
        refine ⟨j + 1, Nat.succ_lt_succ hj, ?_⟩
        rw [h2]
        have : i + 1 + j = i + (j + 1) := by omega
        rw [this, List.getD_cons_succ]

/-- The single-result FAISS search: on a nonempty vector list it returns a
valid index whose score is that vector's inner product with the query, and no
stored vector scores higher. -/
theorem bestMatch_spec (q : List ℚ) (l : List (List ℚ)) (h : l ≠ []) :
    ∃ i s, bestMatch q l = some (i, s) ∧ i < l.length ∧
      s = innerProd q (l.getD i []) ∧
      ∀ j, j < l.length → innerProd q (l.getD j []) ≤ s := by
  match l, h with
  | v :: vs, _ =>
    rcases bestStep_cases q vs (0, innerProd q v) 1 with h1 | ⟨j, hj, h2⟩
    · refine ⟨0, innerProd q v, ?_, Nat.succ_pos _, by simp, ?_⟩
      · simp only [bestMatch, h1]
      · intro j hj
        cases j with
        | zero => simp
        | succ j' =>
          have hb := bestStep_bound q vs (0, innerProd q v) 1 j'
            (Nat.lt_of_succ_lt_succ hj)
          rw [h1] at hb
          simpa using hb
    · refine ⟨1 + j, innerProd q (vs.getD j []), ?_, ?_, ?_, ?_⟩
      · simp only [bestMatch]
        rw [h2]
      · simp only [List.length_cons]
        omega
      · have h1j : 1 + j = j + 1 := by omega
        rw [h1j, List.getD_cons_succ]
      · intro j' hj'
        cases j' with
        | zero =>
          have hb := bestStep_ge q vs (0, innerProd q v) 1
          rw [h2] at hb
          simpa using hb
        | succ j'' =>
          have hb := bestStep_bound q vs (0, innerProd q v) 1 j''
            (Nat.lt_of_succ_lt_succ hj')
          rw [h2] at hb
          simpa using hb

namespace SemanticCache

/-- The effective threshold: Python's `threshold or self.similarity_threshold`
falls back to the default when the argument is `None` **or** falsy (`0.0`). -/
def resolveThreshold (st : SemanticCache) : Option ℚ → ℚ
  | none => st.similarity_threshold
  | some v => if v = 0 then st.similarity_threshold else v

/-- Source `find_similar`: miss on an empty cache; otherwise search the FAISS index
for the best match of the query embedding, miss (state unchanged) when its
score is below the effective threshold, and otherwise resolve the matched
position through `prompt_embeddings` and `cache_data`.  An expired best match
is removed via `_remove_entry` and reported as a miss.  The result is `none`
on the paths where the source raises on a desynchronised state (`k = 0`
search when `prompt_embeddings` is empty, position out of range of
`prompt_embeddings`, or a key missing from `cache_data`), and `some (hit?,
state)` otherwise. -/
def find_similar (st : SemanticCache) (queryEmb : List ℚ)
    (threshold? : Option ℚ) (now : ℚ) :
    Option (Option CacheHit × SemanticCache) :=
  if st.cache_data.isEmpty then some (none, st)
  else if st.prompt_embeddings.length = 0 then none
  else
    match bestMatch queryEmb st.index with
    | none => none
    | some (best_idx, score) =>
      if score < st.resolveThreshold threshold? then some (none, st)
      else
        match st.prompt_embeddings.get? best_idx with
        | none => none
        | some cache_key =>
          match st.cache_data.lookup cache_key with
          | none => none
          | some cache_entry =>
            if st._is_expired cache_entry now then
              some (none, st._remove_entry cache_key best_idx)
            else
              some (some ⟨cache_entry.response, cache_entry.model,
                cache_entry.latency_ms, score, cache_entry.timestamp,
                cache_entry.metadata⟩, st)

end SemanticCache

/-- C4 (amended): on any *synchronised* cache state (as many index vectors
as keys, every key resolvable, every entry keyed) with at least one entry —
the restriction is forced by the counterexample, where a removal has left a
vector orphaned in the index and the lookup raises instead — `find_similar`
locates the best-scoring vector (no stored vector scores higher); it returns
that match as a hit — with its similarity score — only when the score is ≥
the effective threshold; a score below the threshold is a miss that leaves
the state unchanged; and a best match whose entry is expired is a miss that
removes the entry (its key leaves `cache_data` and its position leaves
`prompt_embeddings`) instead of returning it. -/
theorem find_similar_best_threshold_ttl
    (st : SemanticCache) (q : List ℚ) (t? : Option ℚ) (now : ℚ)
    (hlen : st.index.length = st.prompt_embeddings.length)
    (hkeys : ∀ kv ∈ st.cache_data, kv.1 ∈ st.prompt_embeddings)
    (hlook : ∀ k ∈ st.prompt_embeddings,
      (st.cache_data.lookup k).isSome = true)
    (hne : st.cache_data ≠ []) :
    ∃ i s cache_key cache_entry,
      bestMatch q st.index = some (i, s) ∧
      i < st.index.length ∧
      s = innerProd q (st.index.getD i []) ∧
      (∀ j, j < st.index.length → innerProd q (st.index.getD j []) ≤ s) ∧
      st.prompt_embeddings.get? i = some cache_key ∧
      st.cache_data.lookup cache_key = some cache_entry ∧
      (s < st.resolveThreshold t? →
        st.find_similar q t? now = some (none, st)) ∧
      (st.resolveThreshold t? ≤ s → st._is_expired cache_entry now = false →
        st.find_similar q t? now =
          some (some ⟨cache_entry.response, cache_entry.model,
            cache_entry.latency_ms, s, cache_entry.timestamp,
            cache_entry.metadata⟩, st)) ∧
      (st.resolveThreshold t? ≤ s → st._is_expired cache_entry now = true →
        st.find_similar q t? now = some (none, st._remove_entry cache_key i) ∧
        (st._remove_entry cache_key i).cache_data.lookup cache_key = none ∧
        (st._remove_entry cache_key i).prompt_embeddings =
          st.prompt_embeddings.eraseIdx i) := by
  obtain ⟨kv0, rest0, hcd⟩ : ∃ kv rest, st.cache_data = kv :: rest := by
    cases h : st.cache_data with
    | nil => exact absurd h hne
    | cons a l => exact ⟨a, l, rfl⟩
  have hkv0 : kv0 ∈ st.cache_data := by rw [hcd]; exact List.mem_cons_self _ _
  have hpe : st.prompt_embeddings ≠ [] := List.ne_nil_of_mem (hkeys kv0 hkv0)
  have hpos : 0 < st.prompt_embeddings.length := List.length_pos.mpr hpe
  have hne0 : ¬(st.prompt_embeddings.length = 0) := Nat.pos_iff_ne_zero.mp hpos
  have hidx : st.index ≠ [] := by
    intro h
    rw [h] at hlen
    exact hne0 hlen.symm
  obtain ⟨i, s, hbm, hilt, hs, hmax⟩ := bestMatch_spec q st.index hidx
  have hipe : i < st.prompt_embeddings.length := hlen ▸ hilt
  have hget : st.prompt_embeddings.get? i =
      some (st.prompt_embeddings.get ⟨i, hipe⟩) := List.get?_eq_get hipe
  have hmem : st.prompt_embeddings.get ⟨i, hipe⟩ ∈ st.prompt_embeddings :=
    List.get_mem _ _ _
  obtain ⟨cache_entry, hentry⟩ :=
    Option.isSome_iff_exists.mp (hlook _ hmem)
  have hemp : st.cache_data.isEmpty = false := by rw [hcd]; rfl
  refine ⟨i, s, st.prompt_embeddings.get ⟨i, hipe⟩, cache_entry, hbm, hilt,
    hs, hmax, hget, hentry, ?_, ?_, ?_⟩
  · intro h
    simp only [SemanticCache.find_similar, hemp, Bool.false_eq_true,
      if_false, hne0, hbm, hget, hentry, if_pos h]
  · intro h hexp
    simp only [SemanticCache.find_similar, hemp, Bool.false_eq_true,
      if_false, hne0, hbm, hget, hentry, if_neg (not_lt.mpr h), hexp,
      Bool.false_eq_true]
  · intro h hexp
    refine ⟨?_, ?_, ?_⟩
    · simp only [SemanticCache.find_similar, hemp, Bool.false_eq_true,
        if_false, hne0, hbm, hget, hentry, if_neg (not_lt.mpr h), hexp,
        if_true]
    · simp only [SemanticCache._remove_entry, hentry, Option.isSome_some,
        if_true]
      exact lookup_dictDel _ _
    · simp only [SemanticCache._remove_entry, hipe, if_pos]

/-- A one-entry synchronised cache used to instantiate the C4 theorem. -/
def sampleCache : SemanticCache :=
  ⟨95/100, 24, [[1]], [("p:m", ⟨"p", "r", "m", 5, 0, [], [1]⟩)], ["p:m"]⟩

/-- The C4 theorem instantiated at a concrete one-entry cache and query. -/
theorem find_similar_best_threshold_ttl_witness :
    ∃ i s cache_key cache_entry,
      bestMatch [1] sampleCache.index = some (i, s) ∧
      i < sampleCache.index.length ∧
      s = innerProd [1] (sampleCache.index.getD i []) ∧
      (∀ j, j < sampleCache.index.length →
        innerProd [1] (sampleCache.index.getD j []) ≤ s) ∧
      sampleCache.prompt_embeddings.get? i = some cache_key ∧
      sampleCache.cache_data.lookup cache_key = some cache_entry ∧
      (s < sampleCache.resolveThreshold none →
        sampleCache.find_similar [1] none 1 = some (none, sampleCache)) ∧
      (sampleCache.resolveThreshold none ≤ s →
        sampleCache._is_expired cache_entry 1 = false →
        sampleCache.find_similar [1] none 1 =
          some (some ⟨cache_entry.response, cache_entry.model,
            cache_entry.latency_ms, s, cache_entry.timestamp,
            cache_entry.metadata⟩, sampleCache)) ∧
      (sampleCache.resolveThreshold none ≤ s →
        sampleCache._is_expired cache_entry 1 = true →
        sampleCache.find_similar [1] none 1 =
          some (none, sampleCache._remove_entry cache_key i) ∧
        (sampleCache._remove_entry cache_key i).cache_data.lookup cache_key =
          none ∧
        (sampleCache._remove_entry cache_key i).prompt_embeddings =
          sampleCache.prompt_embeddings.eraseIdx i) :=
  find_similar_best_threshold_ttl sampleCache [1] none 1
    (by with_unfolding_all decide) (by with_unfolding_all decide)
    (by with_unfolding_all decide) (by with_unfolding_all decide)

/-- A desynchronised cache reachable through two plain `store` calls: store
`"a"` at t = 0, then store `"b"` at t = 100000 (past the 24 h TTL), whose
maintenance pass removes the expired `"a"` entry and its key but leaves
`"a"`'s vector in the FAISS index — two vectors against one key and one live
entry. -/
def desyncCache : SemanticCache :=
  ((SemanticCache.init (95/100) 24).store "a" "ra" "m" 1 [] [0] 0).store
    "b" "rb" "m" 1 [] [1] 100000

/-- C4 counterexample: on the reachable desynchronised state a live,
unexpired entry (`"b"`) exists and the best index match is its vector, at
position 1 with similarity 1 ≥ the 0.95 threshold — yet `find_similar` does
not return that best match: position 1 is out of range of the one-element
key list, so the source raises `IndexError` (modelled as `none`).  The
claim's "for every cache state" quantification is therefore false. -/
theorem find_similar_faults_on_reachable_desync :
    desyncCache.index.length = 2 ∧
    desyncCache.prompt_embeddings = ["b:m"] ∧
    (desyncCache.cache_data.lookup "b:m").isSome = true ∧
    desyncCache.cache_data.all
      (fun kv => !desyncCache._is_expired kv.2 100000) = true ∧
    bestMatch [1] desyncCache.index = some (1, 1) ∧
    desyncCache.resolveThreshold none ≤ 1 ∧
    desyncCache.find_similar [1] none 100000 = none := by
  refine ⟨?_, ?_, ?_, ?_, ?_, ?_, ?_⟩
  · with_unfolding_all decide
  · with_unfolding_all decide
  · with_unfolding_all decide
  · with_unfolding_all decide
  · with_unfolding_all decide
  · with_unfolding_all decide
  · with_unfolding_all decide

/-- C2 counterexample: two `store` calls with the same `(prompt, model)` pair
leave a single live entry in `cache_data` but two vectors in the FAISS index
(and two copies of the key in `prompt_embeddings`), refuting the
one-entry-one-vector invariant over arbitrary operation sequences. -/
theorem duplicate_store_breaks_entry_vector_bijection :
    (((SemanticCache.init (95/100) 24).store "p" "r" "m" 1 [] [1] 0).store
        "p" "r" "m" 1 [] [1] 0).cache_data.length = 1 ∧
    (((SemanticCache.init (95/100) 24).store "p" "r" "m" 1 [] [1] 0).store
        "p" "r" "m" 1 [] [1] 0).index.length = 2 := by
  constructor
  · with_unfolding_all decide
  · with_unfolding_all decide

/-- Map/index synchronisation: the keys of `cache_data` (in insertion order)
are exactly `prompt_embeddings`, and the FAISS index holds one vector per
key. -/
def SemanticCache.Sync (st : SemanticCache) : Prop :=
  st.cache_data.map Prod.fst = st.prompt_embeddings ∧
  st.index.length = st.prompt_embeddings.length

/-- Source `_clean_expired` is the identity when no entry is expired. -/
theorem clean_expired_of_no_expiry (st : SemanticCache) (now : ℚ)
    (h : ∀ kv ∈ st.cache_data, st._is_expired kv.2 now = false) :
    st._clean_expired now = st := by
  have hfil : st.cache_data.filter (fun kv => st._is_expired kv.2 now) = [] :=
    List.filter_eq_nil_iff.mpr (fun kv hkv => by rw [h kv hkv]; exact
      Bool.false_ne_true)
  simp only [SemanticCache._clean_expired, hfil, List.map_nil, List.foldl_nil]

/-- A fresh-key `store` during which nothing expires reduces to the three
appends (entry, vector, key) with no cleanup. -/
theorem store_eq_of_fresh_no_expiry (st : SemanticCache)
    (prompt response model : String) (lat : ℚ)
    (md : List (String × String)) (emb : List ℚ) (now : ℚ)
    (httl : 0 ≤ st.ttl_hours)
    (hfresh : SemanticCache._generate_key prompt model ∉
      st.cache_data.map Prod.fst)
    (hnoexp : ∀ kv ∈ st.cache_data,
      now - kv.2.timestamp ≤ st.ttl_hours * 3600) :
    st.store prompt response model lat md emb now =
      { st with
        cache_data := st.cache_data ++
          [(SemanticCache._generate_key prompt model,
            ⟨prompt, response, model, lat, now, md, emb⟩)]
        index := st.index ++ [emb]
        prompt_embeddings := st.prompt_embeddings ++
          [SemanticCache._generate_key prompt model] } := by
  have hset : dictSet st.cache_data (SemanticCache._generate_key prompt model)
      ⟨prompt, response, model, lat, now, md, emb⟩ =
      st.cache_data ++ [(SemanticCache._generate_key prompt model,
        ⟨prompt, response, model, lat, now, md, emb⟩)] :=
    dictSet_of_not_mem _ _ _ hfresh
  simp only [SemanticCache.store, hset]
  apply clean_expired_of_no_expiry
  intro kv hkv
  rcases List.mem_append.mp hkv with hin | hnew
  · simp only [SemanticCache._is_expired, decide_eq_false_iff_not, not_lt]
    exact hnoexp kv hin
  · have hkv' : kv = (SemanticCache._generate_key prompt model,
        ⟨prompt, response, model, lat, now, md, emb⟩) := by
      simpa using hnew
    subst hkv'
    simp only [SemanticCache._is_expired, decide_eq_false_iff_not, not_lt]
    have : now - now = 0 := by ring
    rw [this]
    exact mul_nonneg httl (by norm_num)

/-- C2 (amended): a `store` whose `(prompt, model)` key is fresh, performed
while no entry is expired, preserves map/key-list/index synchronisation and
grows the entry map and the vector index by exactly one each — every live
entry keeps exactly one vector under fresh-key stores.  `_remove_entry`,
however, deletes the map entry and pops the key-list position but leaves the
FAISS index untouched — the entry and its vector are NOT removed together —
and a duplicate-key store grows the index without adding a live entry (see
the counterexample), so the invariant fails over arbitrary operation
sequences. -/
theorem store_sync_and_remove_asymmetry :
    (∀ (st : SemanticCache) (prompt response model : String) (lat : ℚ)
       (md : List (String × String)) (emb : List ℚ) (now : ℚ),
      st.Sync →
      0 ≤ st.ttl_hours →
      SemanticCache._generate_key prompt model ∉ st.cache_data.map Prod.fst →
      (∀ kv ∈ st.cache_data, now - kv.2.timestamp ≤ st.ttl_hours * 3600) →
      (st.store prompt response model lat md emb now).Sync ∧
      (st.store prompt response model lat md emb now).cache_data.length =
        st.cache_data.length + 1 ∧
      (st.store prompt response model lat md emb now).index.length =
        st.index.length + 1) ∧
    (∀ (st : SemanticCache) (key : String) (i : ℕ),
      (st._remove_entry key i).index = st.index ∧
      (st._remove_entry key i).cache_data.lookup key = none ∧
      (i < st.prompt_embeddings.length →
        (st._remove_entry key i).prompt_embeddings.length =
          st.prompt_embeddings.length - 1)) := by
  constructor
  · intro st prompt response model lat md emb now hsync httl hfresh hnoexp
    rw [store_eq_of_fresh_no_expiry st prompt response model lat md emb now
      httl hfresh hnoexp]
    refine ⟨⟨?_, ?_⟩, ?_, ?_⟩
    · simp only [List.map_append, List.map_cons, List.map_nil, hsync.1]
    · simp only [List.length_append, List.length_cons, List.length_nil,
        hsync.2]
    · simp
    · simp
  · intro st key i
    refine ⟨rfl, ?_, ?_⟩
    · simp only [SemanticCache._remove_entry]
      by_cases h : (st.cache_data.lookup key).isSome = true
      · simp only [h, if_true]
        exact lookup_dictDel _ _
      · simp only [h, if_false]
        exact Option.not_isSome_iff_eq_none.mp h
    · intro hi
      simp only [SemanticCache._remove_entry, hi, if_pos]
      have := List.length_eraseIdx_add_one hi
      omega


/-- The C2 amended theorem at concrete inputs: a fresh-key store on the empty
cache keeps it synchronised with one entry and one vector, and removal at a
concrete one-entry cache keeps the vector while deleting the entry. -/
theorem store_sync_and_remove_asymmetry_witness :
    (((SemanticCache.init (95/100) 24).store "p" "r" "m" 1 [] [1] 0).Sync ∧
     ((SemanticCache.init (95/100) 24).store "p" "r" "m" 1 [] [1]
        0).cache_data.length = (SemanticCache.init (95/100) 24).cache_data.length + 1 ∧
     ((SemanticCache.init (95/100) 24).store "p" "r" "m" 1 [] [1]
        0).index.length = (SemanticCache.init (95/100) 24).index.length + 1) ∧
    ((sampleCache._remove_entry "p:m" 0).index = sampleCache.index ∧
     (sampleCache._remove_entry "p:m" 0).cache_data.lookup "p:m" = none ∧
     (0 < sampleCache.prompt_embeddings.length →
       (sampleCache._remove_entry "p:m" 0).prompt_embeddings.length =
         sampleCache.prompt_embeddings.length - 1)) :=
  ⟨store_sync_and_remove_asymmetry.1 (SemanticCache.init (95/100) 24)
      "p" "r" "m" 1 [] [1] 0 (by constructor <;> rfl)
      (by norm_num [SemanticCache.init])
      (by with_unfolding_all decide) (by with_unfolding_all decide),
   store_sync_and_remove_asymmetry.2 sampleCache "p:m" 0⟩

/-- Source `gateway/metrics.py` — one sample of the metrics ring. -/
structure MetricSample where
  timestamp : ℚ
  provider : String
  model : String
  latency_ms : ℚ
  cost : ℚ
  success : Bool
  cached : Bool
deriving Repr, DecidableEq

/-- Per-provider running totals (`provider_metrics` defaultdict values). -/
structure ProviderMetrics where
  requests : ℕ
  successes : ℕ
  failures : ℕ
  total_latency : ℚ
  total_cost : ℚ
deriving Repr, DecidableEq

/-- Source `metrics.py` — `MetricsCollector` state.  The minute-bucketed
`time_series` graph data (lines 99–134 of the source) is not modelled: no
claim reads it and no modelled operation depends on it. -/
structure MetricsCollector where
  window_size : ℕ
  request_metrics : List MetricSample
  provider_metrics : List (String × ProviderMetrics)
  cache_hits : ℕ
  cache_misses : ℕ
  rate_limit_hits : ℕ
deriving Repr, DecidableEq

namespace MetricsCollector

/-- Source `MetricsCollector.__init__` (default window 1000). -/
def init (window_size : ℕ) : MetricsCollector := ⟨window_size, [], [], 0, 0, 0⟩

/-- Source `record_request`: append to the fixed-capacity ring (deque `maxlen`
evicts from the left on overflow) and bump the per-provider totals. -/
def record_request (m : MetricsCollector) (provider model : String)
    (latency_ms cost : ℚ) (success cached : Bool) (now : ℚ) :
    MetricsCollector :=
  let sample : MetricSample := ⟨now, provider, model, latency_ms, cost,
    success, cached⟩
  let rm := m.request_metrics ++ [sample]
  let rm := if rm.length > m.window_size then
    rm.drop (rm.length - m.window_size) else rm
  let pm := (m.provider_metrics.lookup provider).getD ⟨0, 0, 0, 0, 0⟩
  let pm := if success then
    { pm with
      requests := pm.requests + 1
      successes := pm.successes + 1
      total_latency := pm.total_latency + latency_ms
      total_cost := pm.total_cost + cost }
  else
    { pm with requests := pm.requests + 1, failures := pm.failures + 1 }
  { m with
    request_metrics := rm
    provider_metrics := dictSet m.provider_metrics provider pm }

/-- Source `record_cache_hit`. -/
def record_cache_hit (m : MetricsCollector) : MetricsCollector :=
  { m with cache_hits := m.cache_hits + 1 }

/-- Source `record_cache_miss`. -/
def record_cache_miss (m : MetricsCollector) : MetricsCollector :=
  { m with cache_misses := m.cache_misses + 1 }

/-- Source `record_rate_limit`. -/
def record_rate_limit (m : MetricsCollector) : MetricsCollector :=
  { m with rate_limit_hits := m.rate_limit_hits + 1 }

/-- Source `get_health_score`: 100 with no samples; else over the last 100 samples,
`min(100, success_rate×50 + max(0, 50 − avg_latency/20))` where the average
latency is `statistics.mean` over the *successful* recent samples — a call
that raises `StatisticsError` when every recent sample failed, modelled as
`none`. -/
def get_health_score (m : MetricsCollector) : Option ℚ :=
  if m.request_metrics.isEmpty then some 100
  else
    let recent := m.request_metrics.drop (m.request_metrics.length - 100)
    if recent.isEmpty then some 100
    else
      let succ := recent.filter (fun s => s.success)
      let success_rate := (succ.length : ℚ) / (recent.length : ℚ)
      if succ.isEmpty then none
      else
        let avg_latency := (succ.map (fun s => s.latency_ms)).sum /
          (succ.length : ℚ)
        some (min 100 (success_rate * 50 + max 0 (50 - avg_latency / 20)))

end MetricsCollector

/-- C8: a health-score evaluation at the failing input.  With no samples the
score defaults to 100, but on a state whose only (hence every) recent sample
is a failure, `statistics.mean` is taken over an empty list and the source
raises `StatisticsError` (modelled as `none`) instead of returning a value —
contradicting the claim that the computation never raises. -/
theorem get_health_score_raises_when_all_recent_failed :
    (MetricsCollector.init 1000).get_health_score = some 100 ∧
    ((MetricsCollector.init 1000).record_request "openai" "gpt-5" 100 1
      false false 0).get_health_score = none := by
  constructor
  · with_unfolding_all decide
  · with_unfolding_all decide

/-- CPython `statistics.quantiles(data, n=n)` with its default 'exclusive'
method: sort, then for i = 1..n−1 interpolate between the neighbours of
position `i(ld+1)/n`, clamping to `[1, ld−1]`.  The `ld < 2` error case is
returned as `[]` (every modelled call site guards the length). -/
def pyQuantiles (data : List ℚ) (n : ℕ) : List ℚ :=
  let d := data.mergeSort (fun a b => a ≤ b)
  let ld := d.length
  if ld < 2 then []
  else
    (List.range (n - 1)).map (fun k =>
      let i := k + 1
      let j := i * (ld + 1) / n
      let delta := i * (ld + 1) % n
      let jc := if j < 1 then 1 else if j > ld - 1 then ld - 1 else j
      let dc := if j < 1 then 0 else if j > ld - 1 then n else delta
      (d.getD (jc - 1) 0 * ((n : ℚ) - (dc : ℚ)) +
        d.getD jc 0 * (dc : ℚ)) / (n : ℚ))

/-- Source `statistics.median`: middle of the sorted data, mean of the two middles
when even (call sites guard emptiness; 0 on the empty list). -/
def pyMedian (data : List ℚ) : ℚ :=
  let d := data.mergeSort (fun a b => a ≤ b)
  let n := d.length
  if n = 0 then 0
  else if n % 2 = 1 then d.getD (n / 2) 0
  else (d.getD (n / 2 - 1) 0 + d.getD (n / 2) 0) / 2

/-- Source `statistics.mean` (call sites guard emptiness; 0 on the empty list). -/
def pyMean (data : List ℚ) : ℚ := data.sum / (data.length : ℚ)

/-- Python `min` over a list (call sites guard emptiness; 0 when empty). -/
def pyListMin : List ℚ → ℚ
  | [] => 0
  | x :: xs => xs.foldl min x

/-- Python `max` over a list (call sites guard emptiness; 0 when empty). -/
def pyListMax : List ℚ → ℚ
  | [] => 0
  | x :: xs => xs.foldl max x

/-- The `{"1h": 1, "24h": 24, "7d": 168, "30d": 720}` time-range table with
its `.get` default. -/
def hoursTable (time_range : String) (default : ℚ) : ℚ :=
  if time_range = "1h" then 1
  else if time_range = "24h" then 24
  else if time_range = "7d" then 168
  else if time_range = "30d" then 720
  else default

/-- The `latency` sub-dict of the `get_metrics` result. -/
structure LatencyStats where
  min : ℚ
  max : ℚ
  mean : ℚ
  median : ℚ
  p95 : ℚ
  p99 : ℚ
deriving Repr, DecidableEq

/-- The `cost` sub-dict of the `get_metrics` result. -/
structure CostStats where
  total : ℚ
  average : ℚ
  min : ℚ
  max : ℚ
deriving Repr, DecidableEq

/-- The `get_metrics` result.  The `provider_breakdown` sub-dict is not
modelled: no claim reads it. -/
structure MetricsReport where
  time_range : String
  total_requests : ℕ
  successful_requests : ℕ
  failed_requests : ℕ
  success_rate : ℚ
  cached_responses : ℕ
  cache_hit_rate : ℚ
  latency : LatencyStats
  cost : CostStats
  rate_limit_hits : ℕ
  requests_per_minute : ℚ
deriving Repr, DecidableEq

namespace MetricsCollector

/-- The time-and-provider sample filter at the top of `get_metrics`. -/
def filteredSamples (m : MetricsCollector) (time_range : String)
    (provider? : Option String) (now : ℚ) : List MetricSample :=
  let hours := hoursTable time_range 1
  let cutoff := now - hours * 3600
  m.request_metrics.filter (fun s =>
    decide (s.timestamp > cutoff) &&
    (match provider? with
     | none => true
     | some p => s.provider == p))

/-- Source `latencies`: the latency values of the *successful* filtered samples. -/
def successLatencies (m : MetricsCollector) (time_range : String)
    (provider? : Option String) (now : ℚ) : List ℚ :=
  ((m.filteredSamples time_range provider? now).filter
    (fun s => s.success)).map (fun s => s.latency_ms)

/-- Source `_empty_metrics`. -/
def _empty_metrics (time_range : String) : MetricsReport :=
  ⟨time_range, 0, 0, 0, 0, 0, 0, ⟨0, 0, 0, 0, 0, 0⟩, ⟨0, 0, 0, 0⟩, 0, 0⟩

/-- Source `get_metrics`: filter the ring by time range and optional provider,
return `_empty_metrics` when nothing remains, else the aggregate report.
Latency statistics (including the p95/p99 percentiles and their 20/100
minimum supports) are computed over the successful samples' latencies. -/
def get_metrics (m : MetricsCollector) (time_range : String)
    (provider? : Option String) (now : ℚ) : MetricsReport :=
  let hours := hoursTable time_range 1
  let filtered := m.filteredSamples time_range provider? now
  if filtered.isEmpty then _empty_metrics time_range
  else
    let latencies := m.successLatencies time_range provider? now
    let costs := filtered.map (fun s => s.cost)
    let success_count := (filtered.filter (fun s => s.success)).length
    let failure_count := (filtered.filter (fun s => !s.success)).length
    let cached_count := (filtered.filter (fun s => s.cached)).length
    let cache_total := m.cache_hits + m.cache_misses
    { time_range := time_range
      total_requests := filtered.length
      successful_requests := success_count
      failed_requests := failure_count
      success_rate := (success_count : ℚ) / (filtered.length : ℚ)
      cached_responses := cached_count
      cache_hit_rate := if cache_total > 0 then
        (m.cache_hits : ℚ) / (cache_total : ℚ) else 0
      latency := {
        min := if latencies.isEmpty then 0 else pyListMin latencies
        max := if latencies.isEmpty then 0 else pyListMax latencies
        mean := if latencies.isEmpty then 0 else pyMean latencies
        median := if latencies.isEmpty then 0 else pyMedian latencies
        p95 := if latencies.length > 20 then
          (pyQuantiles latencies 20).getD 18 0 else 0
        p99 := if latencies.length > 100 then
          (pyQuantiles latencies 100).getD 98 0 else 0 }
      cost := {
        total := costs.sum
        average := if costs.isEmpty then 0 else pyMean costs
        min := if costs.isEmpty then 0 else pyListMin costs
        max := if costs.isEmpty then 0 else pyListMax costs }
      rate_limit_hits := m.rate_limit_hits
      requests_per_minute := if hours > 0 then
        (filtered.length : ℚ) / (hours * 60) else 0 }

end MetricsCollector

/-- Twentyone ring samples, all failures, all inside the 1 h window. -/
def allFailuresState : MetricsCollector :=
  { MetricsCollector.init 1000 with
    request_metrics :=
      List.replicate 21 ⟨0, "openai", "gpt-5", 100, 1, false, false⟩ }

/-- C9 counterexample: with 21 filtered samples (all failures, latency 100),
the filtered count exceeds the claimed 20-sample support, yet `get_metrics`
reports p95 = 0 — while the 95th percentile over the filtered samples'
latencies is 100 — because the source counts support over, and computes
percentiles over, only the *successful* samples' latencies. -/
theorem percentile_support_counts_successes_not_filtered :
    (allFailuresState.get_metrics "1h" none 0).total_requests = 21 ∧
    (allFailuresState.get_metrics "1h" none 0).latency.p95 = 0 ∧
    (pyQuantiles (List.replicate 21 (100 : ℚ)) 20).getD 18 0 = 100 ∧
    (0 : ℚ) ≠ 100 := by
  refine ⟨?_, ?_, ?_, by norm_num⟩
  · with_unfolding_all decide
  · with_unfolding_all decide
  · with_unfolding_all decide

/-- C9 (amended): `get_metrics` reports the p95 latency percentile as 0
unless the count of *successful* filtered samples exceeds 20, and the p99
percentile as 0 unless that count exceeds 100; when the support is exceeded,
the percentile is computed (by the exclusive-method quantile function) over
the successful filtered samples' latencies. -/
theorem get_metrics_percentile_support (m : MetricsCollector)
    (time_range : String) (provider? : Option String) (now : ℚ) :
    ((m.successLatencies time_range provider? now).length ≤ 20 →
      (m.get_metrics time_range provider? now).latency.p95 = 0) ∧
    ((m.successLatencies time_range provider? now).length > 20 →
      (m.get_metrics time_range provider? now).latency.p95 =
        (pyQuantiles (m.successLatencies time_range provider? now) 20).getD
          18 0) ∧
    ((m.successLatencies time_range provider? now).length ≤ 100 →
      (m.get_metrics time_range provider? now).latency.p99 = 0) ∧
    ((m.successLatencies time_range provider? now).length > 100 →
      (m.get_metrics time_range provider? now).latency.p99 =
        (pyQuantiles (m.successLatencies time_range provider? now) 100).getD
          98 0) := by
  by_cases hemp : (m.filteredSamples time_range provider? now).isEmpty
  · have hlat : m.successLatencies time_range provider? now = [] := by
      unfold MetricsCollector.successLatencies
      rw [List.isEmpty_iff.mp hemp]
      rfl
    simp only [MetricsCollector.get_metrics, hemp, if_true, hlat]
    refine ⟨fun _ => rfl, fun h => absurd h (by simp), fun _ => rfl,
      fun h => absurd h (by simp)⟩
  · simp only [MetricsCollector.get_metrics, hemp, Bool.false_eq_true,
      if_false]
    refine ⟨fun h => ?_, fun h => ?_, fun h => ?_, fun h => ?_⟩
    · exact if_neg (by omega)
    · exact if_pos h
    · exact if_neg (by omega)
    · exact if_pos h

/-- The C9 amended theorem at the all-failures state: 21 filtered samples but
zero successful ones, so both percentiles are reported as 0. -/
theorem get_metrics_percentile_support_witness :
    (allFailuresState.get_metrics "1h" none 0).latency.p95 = 0 ∧
    (allFailuresState.get_metrics "1h" none 0).latency.p99 = 0 :=
  ⟨(get_metrics_percentile_support allFailuresState "1h" none 0).1
      (by with_unfolding_all decide),
   (get_metrics_percentile_support allFailuresState "1h" none 0).2.2.1
      (by with_unfolding_all decide)⟩

/-- Substring test on character lists (Python's `needle in haystack`). -/
def containsSub (hay needle : List Char) : Bool :=
  (List.range (hay.length + 1)).any (fun i => needle.isPrefixOf (hay.drop i))

/-- Source `gateway/router.py` — `ModelCapabilities` dataclass. -/
structure ModelCapabilities where
  name : String
  provider : String
  context_length : ℕ
  supports_functions : Bool
  supports_vision : Bool
  supports_streaming : Bool
  avg_latency_ms : ℚ
  cost_per_1m_tokens : ℚ
  quality_score : ℚ
  specialties : List String
deriving Repr, DecidableEq

/-- The health dict produced by `check_provider_health`.  The probe itself is
randomized/simulated in the source and is treated as an injected capability:
routing receives a `String → HealthData` map, keyed by provider name. -/
structure HealthData where
  available : Bool
  latency_ms : ℚ
  success_rate : ℚ
  status : String
deriving Repr, DecidableEq

/-- A requirements bag (`{"high_quality": true, ...}`); absent keys read as
`False` through `.get(key, False)`. -/
def reqGet (requirements : List (String × Bool)) (k : String) : Bool :=
  (requirements.lookup k).getD false

/-- Source `router.py` — `_initialize_providers`: the static 2025 model catalog. -/
def initial_providers : List (String × ModelCapabilities) :=
  [ ("gpt-5", ⟨"gpt-5", "openai", 128000, true, true, true, 750, 15, 98/100,
      ["reasoning", "creative", "analysis", "math", "coding"]⟩),
    ("o3", ⟨"o3", "openai", 128000, true, true, true, 1200, 20, 99/100,
      ["reasoning", "complex-problem-solving", "math", "coding"]⟩),
    ("o4-mini", ⟨"o4-mini", "openai", 128000, true, false, true, 400, 5,
      91/100, ["reasoning", "cost-efficient", "fast-inference"]⟩),
    ("claude-opus-4.1", ⟨"claude-opus-4.1", "anthropic", 1000000, true, true,
      true, 900, 75, 97/100, ["code", "reasoning", "long-form",
      "agentic-tasks"]⟩),
    ("claude-sonnet-4", ⟨"claude-sonnet-4", "anthropic", 1000000, true, true,
      true, 600, 15, 94/100, ["code", "reasoning", "balanced", "efficiency"]⟩),
    ("gemini-2.5-pro", ⟨"gemini-2.5-pro", "google", 2000000, true, true, true,
      800, 12, 96/100, ["thinking", "long-context", "multimodal",
      "analysis"]⟩),
    ("gemini-2.5-flash", ⟨"gemini-2.5-flash", "google", 1000000, true, true,
      true, 500, 3, 92/100, ["price-performance", "thinking", "agentic",
      "speed"]⟩),
    ("grok-4", ⟨"grok-4", "xai", 256000, true, true, true, 600, 15, 95/100,
      ["reasoning", "real-time", "creative", "web-search"]⟩),
    ("grok-4-heavy", ⟨"grok-4-heavy", "xai", 256000, true, true, true, 1000,
      25, 98/100, ["reasoning", "complex-tasks", "real-time", "premium"]⟩) ]

/-- Source `_classify_task`: first matching keyword set wins, in the source's fixed
priority order; `"general"` otherwise. -/
def _classify_task (prompt : String) : String :=
  let pl := prompt.toLower
  let has := fun (kws : List String) =>
    kws.any (fun k => containsSub pl.data k.data)
  if has ["code", "function", "debug", "program", "algorithm"] then "code"
  else if has ["story", "poem", "creative", "imagine", "write"] then "creative"
  else if has ["analyze", "explain", "summarize", "reasoning", "think"] then
    "reasoning"
  else if has ["math", "calculate", "solve", "equation", "formula"] then
    "math"
  else if has ["long", "document", "context", "large"] then "long-context"
  else if has ["image", "picture", "visual", "see", "photo"] then "multimodal"
  else if has ["real-time", "current", "latest", "news", "today"] then
    "real-time"
  else "general"

/-- The health-independent part of `_score_provider`: specialty bonus,
quality, optional latency/cost contributions, and the context-length
adjustment, accumulated in source order. -/
def scoreBase (caps : ModelCapabilities) (task_type : String)
    (requirements : List (String × Bool)) (prompt_length : ℕ) : ℚ :=
  let score : ℚ := 0
  let score := if caps.specialties.contains task_type then score + 20
    else score
  let score := if reqGet requirements "high_quality" then
    score + caps.quality_score * 30 else score + caps.quality_score * 10
  let score := if reqGet requirements "low_latency" then
    score + max 0 (100 - caps.avg_latency_ms / 10) * (3/10) else score
  let score := if reqGet requirements "low_cost" then
    score + max 0 (100 - caps.cost_per_1m_tokens) * (3/10) else score
  if (prompt_length : ℚ) > (caps.context_length : ℚ) * (1/2) then
    (if caps.context_length ≥ 1000000 then score + 15 else score - 20)
  else score

/-- Source `_score_provider`: the accumulated score, except that an unavailable
backend's score is *assigned* the sentinel −1000 (all other contributions
overridden); an available backend adds `success_rate × 10`. -/
def _score_provider (caps : ModelCapabilities) (task_type : String)
    (requirements : List (String × Bool)) (prompt_length : ℕ)
    (health : HealthData) : ℚ :=
  if !health.available then -1000
  else scoreBase caps task_type requirements prompt_length +
    health.success_rate * 10

/-- Python `max(..., key=f)` over a scanned tail: keep the current best
unless a later element scores strictly higher (first maximum wins). -/
def pickBestNe {α : Type} (f : α → ℚ) (best : α) : List α → α
  | [] => best
  | p :: ps => if f p > f best then pickBestNe f p ps else pickBestNe f best ps

/-- Python `max(iterable, key=f)` (raises on an empty iterable → `none`). -/
def pickBest {α : Type} (f : α → ℚ) : List α → Option α
  | [] => none
  | p :: ps => some (pickBestNe f p ps)

theorem pickBestNe_mem {α : Type} (f : α → ℚ) (l : List α) :
    ∀ best, pickBestNe f best l ∈ best :: l := by
  induction l with
  | nil => intro best; exact List.mem_cons_self _ _
  | cons p ps ih =>
    intro best
    simp only [pickBestNe]
    by_cases h : f p > f best
    · rw [if_pos h]
      exact List.mem_cons_of_mem _ (ih p)
    · rw [if_neg h]
      rcases List.mem_cons.mp (ih best) with h1 | h1
      · rw [h1]
        exact List.mem_cons_self _ _
      · exact List.mem_cons_of_mem _ (List.mem_cons_of_mem _ h1)

/-- Source `router.py` — `IntelligentRouter`.  The 60-second `health_cache` and the
unused `performance_history` are not modelled: health probing is the injected
capability consumed by `route_request`. -/
structure IntelligentRouter where
  providers : List (String × ModelCapabilities)
deriving Repr, DecidableEq

namespace IntelligentRouter

/-- Source `IntelligentRouter.__init__`. -/
def init : IntelligentRouter := ⟨initial_providers⟩

/-- Source `route_request`: an explicitly named, known model short-circuits; else
classify the prompt, score every provider (health via the injected
`healthOf`, keyed by the capability's provider name), and take the maximum
(first-registered wins ties).  Returns the `(model name, capabilities)` of
the chosen provider config (`none` only for an empty catalog, where the
source's `max()` would raise). -/
def route_request (r : IntelligentRouter) (prompt preferred_model : String)
    (requirements : List (String × Bool)) (healthOf : String → HealthData) :
    Option (String × ModelCapabilities) :=
  if preferred_model ≠ "auto" ∧ (r.providers.lookup preferred_model).isSome
  then (r.providers.lookup preferred_model).map
    (fun caps => (preferred_model, caps))
  else
    let task_type := _classify_task prompt
    pickBest (fun p => _score_provider p.2 task_type requirements
      prompt.length (healthOf p.2.provider)) r.providers

end IntelligentRouter

/-- C7: an unavailable backend's score is forced to the sentinel −1000
whatever the other contributions; an available backend scores the base
contributions plus `success_rate × 10`; and auto-mode routing over the
registered catalog always returns some registered profile — for every health
assignment, including all-unavailable ones. -/
theorem score_sentinel_and_auto_total :
    (∀ (caps : ModelCapabilities) (task_type : String)
       (requirements : List (String × Bool)) (prompt_length : ℕ)
       (health : HealthData), health.available = false →
      _score_provider caps task_type requirements prompt_length health =
        -1000) ∧
    (∀ (caps : ModelCapabilities) (task_type : String)
       (requirements : List (String × Bool)) (prompt_length : ℕ)
       (health : HealthData), health.available = true →
      _score_provider caps task_type requirements prompt_length health =
        scoreBase caps task_type requirements prompt_length +
          health.success_rate * 10) ∧
    (∀ (prompt : String) (requirements : List (String × Bool))
       (healthOf : String → HealthData),
      ∃ p, IntelligentRouter.init.route_request prompt "auto" requirements
          healthOf = some p ∧ p ∈ initial_providers) := by
  refine ⟨?_, ?_, ?_⟩
  · intro caps task_type requirements prompt_length health h
    simp only [_score_provider, h, Bool.not_false, if_true]
  · intro caps task_type requirements prompt_length health h
    simp only [_score_provider, h, Bool.not_true, Bool.false_eq_true,
      if_false]
  · intro prompt requirements healthOf
    simp only [IntelligentRouter.route_request, IntelligentRouter.init,
      ne_eq, not_true_eq_false, false_and, if_false, initial_providers,
      pickBest]
    refine ⟨_, rfl, ?_⟩
    have h := pickBestNe_mem
      (fun (p : String × ModelCapabilities) => _score_provider p.2
        (_classify_task prompt) requirements prompt.length
        (healthOf p.2.provider))
      (initial_providers.tail) (initial_providers.head (by
        simp [initial_providers]))
    simpa [initial_providers] using h

/-- The C7 theorem at concrete inputs: a sentinel score for an unavailable
dummy backend, the success-rate bonus for an available one, and an
all-backends-unavailable auto route that still returns a registered
profile. -/
theorem score_sentinel_and_auto_total_witness :
    _score_provider ⟨"x", "y", 10, false, false, false, 1, 1, 1, []⟩ "code"
        [] 2 ⟨false, 0, 1, "down"⟩ = -1000 ∧
    _score_provider ⟨"x", "y", 10, false, false, false, 1, 1, 1, []⟩ "code"
        [] 2 ⟨true, 0, 1, "healthy"⟩ =
      scoreBase ⟨"x", "y", 10, false, false, false, 1, 1, 1, []⟩ "code" [] 2 +
        1 * 10 ∧
    ∃ p, IntelligentRouter.init.route_request "hi" "auto" []
        (fun _ => ⟨false, 0, 1, "down"⟩) = some p ∧ p ∈ initial_providers :=
  ⟨score_sentinel_and_auto_total.1 _ "code" [] 2 _ rfl,
   score_sentinel_and_auto_total.2.1 _ "code" [] 2 _ rfl,
   score_sentinel_and_auto_total.2.2 "hi" [] _⟩

/-- The four gateway components the server module instantiates at import
time (`server.py` lines 39–43, with each constructor's defaults). -/
structure GatewayState where
  rate_limiter : AdaptiveRateLimiter
  cache : SemanticCache
  cost_optimizer : CostOptimizer
  metrics : MetricsCollector
deriving Repr, DecidableEq

/-- The module-level component instances. -/
def GatewayState.initState : GatewayState :=
  ⟨AdaptiveRateLimiter.init 60 1000 10, SemanticCache.init (95/100) 24,
   CostOptimizer.init, MetricsCollector.init 1000⟩

/-- The dicts `unified_completion` returns: the rate-limit error payload, a
cache hit (`cached: True`, `cost: 0`), or a fresh completion
(`cached: False`). -/
inductive UCResult where
  | rateLimited (retry_after : ℤ)
  | hit (text : String) (model : String) (cost : ℚ) (latency_ms : ℚ)
  | fresh (text model provider : String) (cost : ℚ) (latency_ms : ℚ)
      (input_tokens output_tokens : ℕ)
deriving Repr, DecidableEq

/-- Whether the response carries `cached: True`. -/
def UCResult.isHit : UCResult → Bool
  | .hit _ _ _ _ => true
  | _ => false

/-- Whether the response is the rate-limit error payload. -/
def UCResult.isRateLimited : UCResult → Bool
  | .rateLimited _ => true
  | _ => false

/-- Truthiness of the optional requirements dict: `None` and `{}` are falsy
(`if requirements and requirements.get("cache_enabled", True)`). -/
def reqTruthy : Option (List (String × Bool)) → Bool
  | none => false
  | some r => !r.isEmpty

/-- Source `.get(key, default)` on a requirements dict. -/
def reqGetD (r : List (String × Bool)) (k : String) (d : Bool) : Bool :=
  (r.lookup k).getD d

/-- Source `len(s.split())`, the server's simplified tokenization (whitespace is
modelled as the space character). -/
def countWords (s : String) : ℕ :=
  ((s.split (fun c => c = ' ')).filter (fun w => w ≠ "")).length

/-- Source `server.py` — `unified_completion`, as a function of the four component
states plus its injected capabilities: the caller identity (`USER_ID`), the
wall clock `now`, the embedding model `embedOf`, the health probe `healthOf`,
and the provider completion call (its response text and measured latency) —
the source wires a mock client here.  The rate-limit gate never calls
`rate_limiter.record_request` (no caller of that method exists in the
server).  Faults from a desynchronised cache, and the source's
except/failover branch they would trigger, are modelled as `none`.  Cache
lookup and store run only when `requirements` is truthy and its
`cache_enabled` (default true) allows. -/
def unified_completion (g0 : GatewayState) (prompt model : String)
    (requirements : Option (List (String × Bool))) (user_id : String)
    (now : ℚ) (embedOf : String → List ℚ) (healthOf : String → HealthData)
    (completionText : String) (latency_ms : ℚ) :
    Option (UCResult × GatewayState) :=
  let res := g0.rate_limiter.should_throttle user_id now
  let g := { g0 with rate_limiter := res.2 }
  if res.1 then
    some (UCResult.rateLimited (g.rate_limiter.get_retry_after user_id now), g)
  else
    let cacheOn := reqTruthy requirements &&
      reqGetD (requirements.getD []) "cache_enabled" true
    let proceed : GatewayState → Option (UCResult × GatewayState) := fun g =>
      match IntelligentRouter.init.route_request prompt model
        (requirements.getD []) healthOf with
      | none => none
      | some (_, caps) =>
        let input_tokens := countWords prompt
        let output_tokens := countWords completionText
        let costRes := g.cost_optimizer.calculate_cost caps.provider
          caps.name input_tokens output_tokens now
        let g := { g with
          cost_optimizer := costRes.2
          metrics := g.metrics.record_request caps.provider caps.name
            latency_ms costRes.1 true false now }
        let g := if cacheOn then
            { g with cache := (g.cache.store prompt completionText caps.name
                latency_ms [] (embedOf prompt) now) }
          else g
        some (UCResult.fresh completionText caps.name caps.provider costRes.1
          latency_ms input_tokens output_tokens, g)
    if cacheOn then
      match g.cache.find_similar (embedOf prompt) (some (95/100)) now with
      | none => none
      | some (some hitRes, cache') =>
        some (UCResult.hit hitRes.text hitRes.model 0 hitRes.latency_ms,
          { g with
            cache := cache'
            metrics := g.metrics.record_cache_hit })
      | some (none, cache') => proceed { g with cache := cache' }
    else proceed g

/-- A deterministic embedding capability for the concrete gateway runs. -/
def mockEmbed : String → List ℚ := fun _ => [1]

/-- An all-healthy probe for the concrete gateway runs. -/
def mockHealth : String → HealthData := fun _ => ⟨true, 100, 1, "healthy"⟩

/-- Run one `unified_completion` per listed timestamp (same caller, default
arguments: `model="auto"`, `requirements=None`), threading the gateway
state. -/
def iterateCalls (g : GatewayState) : List ℚ → Option GatewayState
  | [] => some g
  | t :: ts =>
    match unified_completion g "hello" "auto" none "default" t mockEmbed
      mockHealth "mock response" 5 with
    | none => none
    | some (_, g') => iterateCalls g' ts

/-- C1 at the failing input: from the freshly initialised gateway (burst
limit 10), ten rapid `unified_completion` calls at seconds 0–9 followed by an
11th at second 10 — the 11th response is NOT the rate-limit rejection, the
would-be `retry_after` is 0 (not positive), and the caller's minute window is
still empty after ten completed requests, because `unified_completion` never
calls `rate_limiter.record_request`. -/
theorem eleven_rapid_requests_all_admitted :
    ((iterateCalls GatewayState.initState
        [0, 1, 2, 3, 4, 5, 6, 7, 8, 9]).bind (fun g10 =>
      unified_completion g10 "hello" "auto" none "default" 10 mockEmbed
        mockHealth "mock response" 5)).map (fun p => p.1.isRateLimited) =
      some false ∧
    ((iterateCalls GatewayState.initState
        [0, 1, 2, 3, 4, 5, 6, 7, 8, 9]).map
      (fun g10 => g10.rate_limiter.get_retry_after "default" 10)) = some 0 ∧
    ((iterateCalls GatewayState.initState
        [0, 1, 2, 3, 4, 5, 6, 7, 8, 9]).map
      (fun g10 => (g10.rate_limiter.getUser "default").minute_window)) =
      some [] := by
  refine ⟨?_, ?_, ?_⟩
  · with_unfolding_all decide
  · with_unfolding_all decide
  · with_unfolding_all decide

/-- Source `route_request` on the initialised router always chooses something: the
catalog is nonempty, so auto mode (and the fallthrough for unknown explicit
names) finds a maximum, and a known explicit name short-circuits. -/
theorem route_request_init_isSome (prompt preferred_model : String)
    (requirements : List (String × Bool)) (healthOf : String → HealthData) :
    (IntelligentRouter.init.route_request prompt preferred_model requirements
      healthOf).isSome = true := by
  unfold IntelligentRouter.route_request
  by_cases h : preferred_model ≠ "auto" ∧
      ((IntelligentRouter.init.providers.lookup preferred_model).isSome :
        Prop)
  · rw [if_pos h]
    obtain ⟨caps, hc⟩ := Option.isSome_iff_exists.mp h.2
    rw [hc]
    rfl
  · rw [if_neg h]
    rfl

/-- C10: when `requirements` is `None` or the empty dict, the truthiness
gates at server.py lines 116 and 161 are both false, so `unified_completion`
neither consults nor writes the semantic cache — the cache component of the
state is returned unchanged and the response is never a `cached: True` hit —
even though `cache_enabled` defaults to true. -/
theorem cache_bypassed_when_requirements_falsy (g : GatewayState)
    (prompt model user_id : String) (now : ℚ) (embedOf : String → List ℚ)
    (healthOf : String → HealthData) (completionText : String)
    (latency_ms : ℚ) (requirements : Option (List (String × Bool)))
    (hreq : requirements = none ∨ requirements = some []) :
    ((unified_completion g prompt model requirements user_id now embedOf
        healthOf completionText latency_ms).map (fun p => p.2.cache) =
      some g.cache) ∧
    ((unified_completion g prompt model requirements user_id now embedOf
        healthOf completionText latency_ms).map (fun p => p.1.isHit) =
      some false) := by
  have hrt : reqTruthy requirements = false := by
    rcases hreq with h | h <;> rw [h] <;> rfl
  obtain ⟨pc, hroute⟩ := Option.isSome_iff_exists.mp
    (route_request_init_isSome prompt model (requirements.getD []) healthOf)
  simp only [unified_completion, hrt, Bool.false_and, Bool.false_eq_true,
    if_false, hroute]
  by_cases hth : (g.rate_limiter.should_throttle user_id now).1 = true
  · rw [if_pos hth]
    exact ⟨rfl, rfl⟩
  · rw [if_neg hth]
    exact ⟨rfl, rfl⟩

/-- The C10 theorem at concrete inputs (fresh gateway, omitted
requirements). -/
theorem cache_bypassed_when_requirements_falsy_witness :
    ((unified_completion GatewayState.initState "hi" "auto" none "u" 0
        mockEmbed mockHealth "resp" 5).map (fun p => p.2.cache) =
      some GatewayState.initState.cache) ∧
    ((unified_completion GatewayState.initState "hi" "auto" none "u" 0
        mockEmbed mockHealth "resp" 5).map (fun p => p.1.isHit) =
      some false) :=
  cache_bypassed_when_requirements_falsy GatewayState.initState "hi" "auto"
    "u" 0 mockEmbed mockHealth "resp" 5 none (Or.inl rfl)
